import Mathlib

/-!
Verification of the go-sdk-daprsvc core: request classification
(invocation interceptor), subscription registry and discovery payload,
cloud-event envelope decoding, and message-result response encoding.
Go types are embedded shallowly: byte slices become `List Nat`, Go maps
become association lists, `error` values become `Option String`
(`none` = nil error, `some m` = error with message `m`), and HTTP
handlers become pure functions from requests to responses.
-/

/-- Header map of a request: list of (name, values) pairs, mirroring
Go's http.Header (map from canonical name to a non-empty value list). -/
abbrev Headers := List (String × List String)

/-- A finished HTTP response: status code, response headers, body.
Bodies are kept as strings (all modeled bodies are textual). -/
structure HttpResponse where
  status : Nat
  headers : List (String × String)
  body : String
deriving DecidableEq, Repr

/-- An inbound HTTP request. -/
structure HttpRequest where
  method : String
  path : String
  headers : Headers
  body : List Nat
deriving DecidableEq, Repr

/-- Response of Go's http.NotFoundHandler(): 404 with a plain-text body. -/
def notFoundResponse : HttpResponse :=
  { status := 404
    headers := [("Content-Type", "text/plain; charset=utf-8"), ("X-Content-Type-Options", "nosniff")]
    body := "404 page not found\n" }

/-- The two mandatory headers of invocation.go detectInvocationRequest. -/
def mandatoryInvocationHeaders : List String :=
  ["Dapr-Caller-App-Id", "Dapr-Callee-App-Id"]

/-- invocation.go detectInvocationRequest: true iff every mandatory
header key is present in the request headers (presence only). -/
def detectInvocationRequest (r : HttpRequest) : Bool :=
  mandatoryInvocationHeaders.all (fun key => r.headers.any (fun h => h.1 == key))

/-- invocation.go makeInvocationRequestInterceptor: on a classified
invocation request, set the X-Daprsvc-Invocation marker header and
serve the registered invocation handler, or http.NotFoundHandler()
when none is registered; otherwise fall through to the alternative
handler. The marker is written to the response writer before the
handler runs, so it is modeled as prepended to the handler response
headers. -/
def makeInvocationRequestInterceptor
    (invHandler : Option (HttpRequest → HttpResponse))
    (alternativeHandler : HttpRequest → HttpResponse)
    (r : HttpRequest) : HttpResponse :=
  if detectInvocationRequest r then
    let resp :=
      match invHandler with
      | some h => h r
      | none => notFoundResponse
    { resp with headers := ("X-Daprsvc-Invocation", "1") :: resp.headers }
  else
    alternativeHandler r

/-- A concrete request carrying both invocation-identity headers,
as built by the module tests. -/
def invocationTestRequest : HttpRequest :=
  { method := "GET"
    path := "/"
    headers := [("Dapr-Caller-App-Id", ["test"]), ("Dapr-Callee-App-Id", ["daprsvc"])]
    body := [] }

/-- Claim C2: every request carrying both mandatory invocation-identity
headers gets the fixed marker header on its response; with no invocation
handler registered such a request is answered 404 (marker still present),
and a registered handler's response is forwarded with unchanged status
and body. -/
theorem invocation_marker_always_present
    (invHandler : Option (HttpRequest → HttpResponse))
    (alternativeHandler : HttpRequest → HttpResponse)
    (r : HttpRequest)
    (hdet : detectInvocationRequest r = true) :
    (("X-Daprsvc-Invocation", "1")
        ∈ (makeInvocationRequestInterceptor invHandler alternativeHandler r).headers)
    ∧ (invHandler = none →
        (makeInvocationRequestInterceptor invHandler alternativeHandler r).status = 404
        ∧ (makeInvocationRequestInterceptor invHandler alternativeHandler r).body
            = notFoundResponse.body)
    ∧ (∀ h, invHandler = some h →
        makeInvocationRequestInterceptor invHandler alternativeHandler r
          = { h r with headers := ("X-Daprsvc-Invocation", "1") :: (h r).headers }) := by
  refine ⟨?_, ?_, ?_⟩
  · cases invHandler <;> simp [makeInvocationRequestInterceptor, hdet]
  · intro hnone
    subst hnone
    simp [makeInvocationRequestInterceptor, hdet, notFoundResponse]
  · intro h hsome
    subst hsome
    simp [makeInvocationRequestInterceptor, hdet]

/-- Witness for claim C2: on the concrete test request (both identity
headers present) with no handler registered, the interceptor answers 404. -/
theorem invocation_marker_always_present_witness :
    (makeInvocationRequestInterceptor none (fun _ => notFoundResponse) invocationTestRequest).status = 404 :=
  ((invocation_marker_always_present none (fun _ => notFoundResponse) invocationTestRequest
    (by decide)).2.1 rfl).1

/-- Character-list prefix test, modeling Go strings.HasPrefix. -/
def listIsPre : List Char → List Char → Bool
  | [], _ => true
  | _ :: _, [] => false
  | a :: as, b :: bs => (a == b) && listIsPre as bs

/-- Lower-casing of a string, modeling Go strings.ToLower (ASCII letters
suffice for the header names involved). -/
def strToLower (s : String) : String :=
  String.mk (s.data.map Char.toLower)

/-- String prefix test on the underlying character lists. -/
def strHasPre (p s : String) : Bool :=
  listIsPre p.data s.data

/-- invocation.go metadataFromHeader (functils pipe): keep the headers
whose lower-cased name starts with "metadata.", then map each kept
header to the pair (full header name, first header value). Go indexes
Value[0]; http.Header never stores an empty value slice for a received
header, modeled by headD with an irrelevant default. -/
def metadataFromHeader (hdrs : Headers) : List (String × String) :=
  (hdrs.filter (fun h => strHasPre "metadata." (strToLower h.1))).map
    (fun h => (h.1, h.2.headD ""))

/-- Counterexample for claim C3: the metadata entry produced for header
Metadata.Foo is keyed by the full header name, not by the remainder
"Foo" after the prefix. -/
theorem metadata_key_is_full_header_name :
    metadataFromHeader [("Metadata.Foo", ["bar"])] = [("Metadata.Foo", "bar")]
    ∧ (metadataFromHeader [("Metadata.Foo", ["bar"])]).lookup "Foo" = none := by
  constructor
  · rfl
  · rfl

/-- Claim C3 (amended): the metadata keys are exactly the full names of
the headers whose lower-cased name starts with "metadata." (one entry
per such header, none for the others), and an entry (k, v) exists iff
some header (k, vs) has the prefix and first value v. -/
theorem metadata_entries_characterization (hdrs : Headers) (k v : String) :
    ((metadataFromHeader hdrs).map Prod.fst
        = (hdrs.filter (fun h => strHasPre "metadata." (strToLower h.1))).map Prod.fst)
    ∧ ((k, v) ∈ metadataFromHeader hdrs ↔
        strHasPre "metadata." (strToLower k) = true
        ∧ ∃ vs, (k, vs) ∈ hdrs ∧ vs.headD "" = v) := by
  constructor
  · simp [metadataFromHeader, List.map_map]
  · constructor
    · intro hmem
      rcases List.mem_map.mp hmem with ⟨⟨k0, vs0⟩, hmemf, heq⟩
      rcases List.mem_filter.mp hmemf with ⟨hmem0, hpre0⟩
      cases heq
      exact ⟨hpre0, vs0, hmem0, rfl⟩
    · rintro ⟨hpre, vs, hmem, hval⟩
      exact List.mem_map.mpr ⟨(k, vs), List.mem_filter.mpr ⟨hmem, hpre⟩, by subst hval; rfl⟩

/-- invocation.go MessageFields (Go field Type is rendered EventType,
TimestampRaw holds the raw RFC3339 input of the abstracted time.Parse). -/
structure MessageFields where
  Source : String
  EventType : String
  Schema : String
  Subject : String
  TimestampRaw : String
deriving DecidableEq, Repr

/-- invocation.go Message; the nested Trace struct is flattened into
the three Trace fields, Data is the raw byte slice. -/
structure Message where
  PubsubName : String
  Topic : String
  Id : String
  Data : List Nat
  ContentType : String
  Metadata : List (String × String)
  Fields : MessageFields
  TraceId : String
  TraceParent : String
  TraceState : String
deriving DecidableEq, Repr

/-- Split a character list at every slash. -/
def splitSlash : List Char → List (List Char)
  | [] => [[]]
  | c :: cs =>
    match splitSlash cs with
    | [] => if c == '/' then [[], []] else [[c]]
    | h :: t => if c == '/' then [] :: h :: t else (c :: h) :: t

/-- Suffix test on character lists. -/
def listEndsWith (l suf : List Char) : Bool :=
  listIsPre suf.reverse l.reverse

/-- Matcher for the Go regular expression of invocation.go
regexDataContentTypeJson, anchored both ways: one or more non-slash
characters, a slash, optionally one or more non-slash characters
followed by a plus sign, then the literal json. Equivalently: exactly
one slash, a non-empty part before it, and after it either json or
t+json with t non-empty (no part other than the slash may contain a
slash, which the split guarantees). -/
def regexDataContentTypeJsonMatch (s : String) : Bool :=
  match splitSlash s.data with
  | [a, b] =>
    !a.isEmpty
      && (b == "json".data || (listEndsWith b ("+json".data) && decide (5 < b.length)))
  | _ => false

/-- Content-type classification shared by Message.ContainsJsonData. -/
def containsJsonDataCT (ct : String) : Bool :=
  ct == "" || regexDataContentTypeJsonMatch ct

/-- invocation.go (msg Message) ContainsJsonData. -/
def Message.ContainsJsonData (m : Message) : Bool :=
  containsJsonDataCT m.ContentType

/-- invocation.go messageResultImpl: optional error (none models a nil
Go error) and the numeric result tag. -/
structure MessageResultImpl where
  err : Option String
  result : Nat
deriving DecidableEq, Repr

/-- invocation.go messageSuccess tag. -/
def messageSuccess : Nat := 0

/-- invocation.go messageRetry tag. -/
def messageRetry : Nat := 1

/-- invocation.go messageDrop tag. -/
def messageDrop : Nat := 2

/-- invocation.go (mri messageResultImpl) Success(). -/
def MessageResultImpl.Success (r : MessageResultImpl) : Bool :=
  r.result == messageSuccess

/-- invocation.go (mri messageResultImpl) Retry(). -/
def MessageResultImpl.Retry (r : MessageResultImpl) : Bool :=
  r.result == messageRetry

/-- invocation.go (mri messageResultImpl) Drop(). -/
def MessageResultImpl.Drop (r : MessageResultImpl) : Bool :=
  r.result == messageDrop

/-- invocation.go MessageResultSuccess(): the zero value, nil error and
tag messageSuccess. -/
def MessageResultSuccess : MessageResultImpl :=
  { err := none, result := messageSuccess }

/-- invocation.go MessageResultRetry(err): a nil argument is replaced
with errors.New of the empty string, so the stored error is never nil. -/
def MessageResultRetry (e : Option String) : MessageResultImpl :=
  { err := some (e.getD ""), result := messageRetry }

/-- invocation.go MessageResultDrop(err): same nil substitution. -/
def MessageResultDrop (e : Option String) : MessageResultImpl :=
  { err := some (e.getD ""), result := messageDrop }

/-- JSON escaping of one character as a JSON string writer performs it
(quote, backslash and whitespace controls escaped). -/
def jsonEscapeChar (c : Char) : String :=
  if c == '"' then "\\\""
  else if c == '\\' then "\\\\"
  else if c == '\n' then "\\n"
  else if c == '\r' then "\\r"
  else if c == '\t' then "\\t"
  else String.singleton c

/-- JSON escaping of a whole string. -/
def jsonEscape (s : String) : String :=
  String.join (s.data.map jsonEscapeChar)

/-- A JSON string literal: escaped content between double quotes. -/
def jsonString (s : String) : String :=
  "\"" ++ jsonEscape s ++ "\""

/-- The JSON object written by the johanson stream writer in the Retry
and Drop branches of makeEventMessageHandler: a status item, plus an
error item exactly when the result error is non-nil. -/
def jsonStatusBody (st : String) (e : Option String) : String :=
  match e with
  | none => "\x7b\"status\":" ++ jsonString st ++ "\x7d"
  | some m => "\x7b\"status\":" ++ jsonString st ++ ",\"error\":" ++ jsonString m ++ "\x7d"

/-- The response written by the switch at the end of
invocation.go makeEventMessageHandler: 200/500/400 with a JSON body for
the three recognized variants, and the 400 plain-text fallback when the
result matches none of them. -/
def encodeMessageResult (r : MessageResultImpl) : HttpResponse :=
  if r.Success then
    { status := 200
      headers := [("Content-Type", "application/json")]
      body := "\x7b\"status\":\"SUCCESS\"\x7d" }
  else if r.Retry then
    { status := 500
      headers := [("Content-Type", "application/json")]
      body := jsonStatusBody "RETRY" r.err }
  else if r.Drop then
    { status := 400
      headers := [("Content-Type", "application/json")]
      body := jsonStatusBody "DROP" r.err }
  else
    { status := 400
      headers := [("Content-Type", "text/plain")]
      body := "Invalid message handler result." }

/-- invocation.go messageParseFail: log and answer 400 with a plain-text
diagnostic naming the pubsub and the topic. -/
def messageParseFailResponse (pubsubName topic e : String) : HttpResponse :=
  { status := 400
    headers := [("Content-Type", "text/plain")]
    body := "Failed to parse event message for pubsub \x27" ++ pubsubName
        ++ "\x27 on topic \x27" ++ topic ++ "\x27: " ++ e }

/-- Claim C1: the callback result is encoded as Success to 200 with the
literal SUCCESS body, Retry to 500 with a JSON status RETRY body, Drop
to 400 with a JSON status DROP body, all three with content type
application/json; the decode-failure response and the invalid-result
fallback carry text/plain. -/
theorem message_result_response_mapping (r : MessageResultImpl) :
    (r.Success = true →
        encodeMessageResult r
          = { status := 200
              headers := [("Content-Type", "application/json")]
              body := "\x7b\"status\":\"SUCCESS\"\x7d" })
    ∧ (r.Retry = true →
        (encodeMessageResult r).status = 500
        ∧ (encodeMessageResult r).headers = [("Content-Type", "application/json")]
        ∧ ∃ e, (encodeMessageResult r).body = jsonStatusBody "RETRY" e)
    ∧ (r.Drop = true →
        (encodeMessageResult r).status = 400
        ∧ (encodeMessageResult r).headers = [("Content-Type", "application/json")]
        ∧ ∃ e, (encodeMessageResult r).body = jsonStatusBody "DROP" e)
    ∧ (r.Success = false → r.Retry = false → r.Drop = false →
        encodeMessageResult r
          = { status := 400
              headers := [("Content-Type", "text/plain")]
              body := "Invalid message handler result." })
    ∧ (∀ ps tp e, (messageParseFailResponse ps tp e).status = 400
        ∧ (messageParseFailResponse ps tp e).headers = [("Content-Type", "text/plain")]) := by
  refine ⟨?_, ?_, ?_, ?_, ?_⟩
  · intro h
    simp [encodeMessageResult, h]
  · intro h
    have hs : r.Success = false := by
      simp [MessageResultImpl.Success, MessageResultImpl.Retry, messageSuccess, messageRetry] at h ⊢
      omega
    simp [encodeMessageResult, hs, h]
  · intro h
    have hs : r.Success = false := by
      simp [MessageResultImpl.Success, MessageResultImpl.Drop, messageSuccess, messageDrop] at h ⊢
      omega
    have hr : r.Retry = false := by
      simp [MessageResultImpl.Retry, MessageResultImpl.Drop, messageRetry, messageDrop] at h ⊢
      omega
    simp [encodeMessageResult, hs, hr, h]
  · intro h1 h2 h3
    simp [encodeMessageResult, h1, h2, h3]
  · intro ps tp e
    exact ⟨rfl, rfl⟩

/-- Witness for claim C1: the concrete Retry result carrying the message
boom is answered with status 500. -/
theorem message_result_response_mapping_witness :
    (encodeMessageResult (MessageResultRetry (some "boom"))).status = 500 :=
  ((message_result_response_mapping (MessageResultRetry (some "boom"))).2.1 (by decide)).1

/-- Counterexample for claim C7: a Retry result constructed with no error
context is encoded with an error field holding the empty string, not with
the field-free body; the same happens for Drop. -/
theorem retry_nil_error_body_has_error_field :
    (encodeMessageResult (MessageResultRetry none)).body
        = "\x7b\"status\":\"RETRY\",\"error\":\"\"\x7d"
    ∧ ((encodeMessageResult (MessageResultRetry none)).body
        ≠ "\x7b\"status\":\"RETRY\"\x7d")
    ∧ (encodeMessageResult (MessageResultDrop none)).body
        = "\x7b\"status\":\"DROP\",\"error\":\"\"\x7d" := by
  refine ⟨by decide, by decide, by decide⟩

/-- Claim C7 (amended): the body has an error field iff the stored error
is present, but the constructors always store an error for Retry and
Drop, substituting an empty-message error for a nil argument; so
Retry with no context yields status 500 and the body with an empty
error field, Drop yields status 400 analogously, and the field-free
RETRY body differs from every body the encoder writes for a
constructor-built Retry. -/
theorem retry_drop_error_always_stored (e : Option String) :
    (MessageResultRetry e).err = some (e.getD "")
    ∧ (MessageResultDrop e).err = some (e.getD "")
    ∧ (encodeMessageResult (MessageResultRetry e)).status = 500
    ∧ (encodeMessageResult (MessageResultRetry e)).body
        = jsonStatusBody "RETRY" (some (e.getD ""))
    ∧ (encodeMessageResult (MessageResultDrop e)).status = 400
    ∧ (encodeMessageResult (MessageResultDrop e)).body
        = jsonStatusBody "DROP" (some (e.getD ""))
    ∧ (∀ m : String, jsonStatusBody "RETRY" (some m) ≠ jsonStatusBody "RETRY" none) := by
  refine ⟨rfl, rfl, rfl, rfl, rfl, rfl, ?_⟩
  intro m h
  have hlen := congrArg String.length h
  simp only [jsonStatusBody, jsonString, String.length_append] at hlen
  have hq : ("\"" : String).length = 1 := rfl
  simp only [hq] at hlen
  omega

/-- Claim C9: every result built by the three exported constructors
makes exactly one of Success, Retry, Drop true, and the encoder answers
each of them with the application/json content type, never with the
invalid-result plain-text fallback. -/
theorem constructor_results_exactly_one (e : Option String) :
    (MessageResultSuccess.Success = true
      ∧ MessageResultSuccess.Retry = false
      ∧ MessageResultSuccess.Drop = false)
    ∧ ((MessageResultRetry e).Success = false
      ∧ (MessageResultRetry e).Retry = true
      ∧ (MessageResultRetry e).Drop = false)
    ∧ ((MessageResultDrop e).Success = false
      ∧ (MessageResultDrop e).Retry = false
      ∧ (MessageResultDrop e).Drop = true)
    ∧ (encodeMessageResult MessageResultSuccess).headers
        = [("Content-Type", "application/json")]
    ∧ (encodeMessageResult (MessageResultRetry e)).headers
        = [("Content-Type", "application/json")]
    ∧ (encodeMessageResult (MessageResultDrop e)).headers
        = [("Content-Type", "application/json")] :=
  ⟨⟨rfl, rfl, rfl⟩, ⟨rfl, rfl, rfl⟩, ⟨rfl, rfl, rfl⟩, rfl, rfl, rfl⟩

/-- invocation.go PubsubOptions. -/
structure PubsubOptions where
  RawPayload : Bool
  NoCloudEvent : Bool
deriving DecidableEq, Repr

/-- invocation.go pubsubEntry; the context argument of MessageHandler is
dropped (the model has no cancellation), so a handler is a pure function
from the decoded Message to a result. -/
structure PubsubEntry where
  pubsubName : String
  topic : String
  options : PubsubOptions
  messageHandler : Message → MessageResultImpl

/-- Value of one base64 alphabet character (standard encoding). -/
def b64Val (c : Char) : Option Nat :=
  let n := c.toNat
  if 65 ≤ n && n ≤ 90 then some (n - 65)
  else if 97 ≤ n && n ≤ 122 then some (n - 97 + 26)
  else if 48 ≤ n && n ≤ 57 then some (n - 48 + 52)
  else if n == 43 then some 62
  else if n == 47 then some 63
  else none

/-- Standard base64 decoding of a character list in four-character
quanta with trailing padding, as Go encoding/base64 StdEncoding accepts
it (non-multiple-of-four lengths, bad characters and interior padding
are corrupt input). -/
def b64DecodeChars : List Char → Option (List Nat)
  | [] => some []
  | c1 :: c2 :: c3 :: c4 :: rest =>
    match b64Val c1, b64Val c2 with
    | some v1, some v2 =>
      if c3 == '=' then
        if c4 == '=' && rest.isEmpty then some [v1 * 4 + v2 / 16] else none
      else
        match b64Val c3 with
        | some v3 =>
          if c4 == '=' then
            if rest.isEmpty then some [v1 * 4 + v2 / 16, v2 % 16 * 16 + v3 / 4] else none
          else
            match b64Val c4 with
            | some v4 =>
              match b64DecodeChars rest with
              | some bs => some ([v1 * 4 + v2 / 16, v2 % 16 * 16 + v3 / 4, v3 % 4 * 64 + v4] ++ bs)
              | none => none
            | none => none
        | none => none
    | _, _ => none
  | _ => none

/-- Go base64.StdEncoding.DecodeString: carriage returns and newlines
are skipped, everything else must form valid padded quanta; none models
the CorruptInputError return. -/
def base64Decode (s : String) : Option (List Nat) :=
  b64DecodeChars (s.data.filter (fun c => !(c == '\r' || c == '\n')))

/-- The cloud-event envelope of makeEventMessageHandler after
json.Unmarshal: required string fields, optional pointer fields as
Option, data captured unparsed into a jsonValueBuf (modeled as the raw
captured bytes). Go field Type is rendered eventType. The malformed
struct tags of the source use equals signs instead of colons, so
encoding/json matches by field name case-insensitively, which maps each
lower-case JSON key to the field of the same name. -/
structure CloudEvent where
  id : String
  source : String
  specversion : String
  eventType : String
  datacontenttype : Option String
  dataschema : Option String
  subject : Option String
  time : Option String
  data : Option (List Nat)
  data_base64 : Option String
  pubsubname : String
  topic : String
  traceid : String
  traceparent : String
  tracestate : String
deriving DecidableEq, Repr

/-- Outcome of the decoding part of makeEventMessageHandler: a decoded
Message, a decode failure answered by messageParseFail, or a Go runtime
panic (the model of dereferencing the nil Data pointer). -/
inductive DecodeOutcome where
  | ok (msg : Message)
  | fail (e : String)
  | crash (e : String)
deriving DecidableEq, Repr

/-- Message fields copied from the envelope after the data resolution in
makeEventMessageHandler; time.Parse is abstracted by keeping the raw
time string (absent time gives the empty string, the zero timestamp). -/
def setEnvelopeFields (m : Message) (ce : CloudEvent) : Message :=
  { m with
    Fields :=
      { Source := ce.source
        EventType := ce.eventType
        Schema := ce.dataschema.getD ""
        Subject := ce.subject.getD ""
        TimestampRaw := ce.time.getD "" }
    TraceId := ce.traceid
    TraceParent := ce.traceparent
    TraceState := ce.tracestate }

/-- The decoding phase of invocation.go makeEventMessageHandler, lines
269 to 358: build the base Message from body and headers; with
NoCloudEvent deliver it verbatim; otherwise require the cloud-event
content type, an unmarshallable body (parsed none models a
json.Unmarshal error), spec version 1.0 and the matching destination,
then resolve the data: a JSON-like effective content type dereferences
the captured data pointer (crash when the field was absent, as the Go
code dereferences nil), otherwise data_base64 is decoded, otherwise the
decode fails. -/
def decodeEventMessage (entry : PubsubEntry) (reqContentType : String)
    (hdrs : Headers) (body : List Nat) (parsed : Option CloudEvent) : DecodeOutcome :=
  let metadata := metadataFromHeader hdrs
  let msg : Message :=
    { PubsubName := entry.pubsubName
      Topic := entry.topic
      Id := ""
      Data := body
      ContentType := ""
      Metadata := metadata
      Fields := { Source := "", EventType := "", Schema := "", Subject := "", TimestampRaw := "" }
      TraceId := ""
      TraceParent := ""
      TraceState := "" }
  if entry.options.NoCloudEvent then
    DecodeOutcome.ok msg
  else if reqContentType != "application/cloudevents+json" then
    DecodeOutcome.fail ("Message does not have a cloud-event content-type: " ++ reqContentType)
  else
    match parsed with
    | none => DecodeOutcome.fail "Failed to unmarshal cloud-event json"
    | some ce =>
      if ce.specversion != "1.0" then
        DecodeOutcome.fail ("Unknown cloud-event spec version \x27" ++ ce.specversion ++ "\x27.")
      else if ce.pubsubname != entry.pubsubName || ce.topic != entry.topic then
        DecodeOutcome.fail ("Message arrived at wrong destination (" ++ entry.pubsubName
            ++ "/" ++ entry.topic ++ ") instead of (" ++ ce.pubsubname ++ "/" ++ ce.topic ++ ").")
      else
        let msg1 := { msg with Id := ce.id, ContentType := ce.datacontenttype.getD "" }
        if msg1.ContainsJsonData then
          match ce.data with
          | none => DecodeOutcome.crash "invalid memory address or nil pointer dereference"
          | some d => DecodeOutcome.ok (setEnvelopeFields { msg1 with Data := d } ce)
        else
          match ce.data_base64 with
          | some b64 =>
            match base64Decode b64 with
            | none => DecodeOutcome.fail "Failed to decode cloud-event base64 data."
            | some bytes => DecodeOutcome.ok (setEnvelopeFields { msg1 with Data := bytes } ce)
          | none => DecodeOutcome.fail "Cloud-event data does not match content type."

/-- Outcome of one full message-route request: a response, or a Go
runtime panic escaping the handler. -/
inductive HandlerOutcome where
  | response (r : HttpResponse)
  | crash (e : String)
deriving DecidableEq, Repr

/-- Full body of the handler returned by makeEventMessageHandler:
decode, then either report the parse failure, propagate the crash, or
invoke the registered callback and encode its result. -/
def handleEventMessage (entry : PubsubEntry) (reqContentType : String)
    (hdrs : Headers) (body : List Nat) (parsed : Option CloudEvent) : HandlerOutcome :=
  match decodeEventMessage entry reqContentType hdrs body parsed with
  | DecodeOutcome.fail e =>
      HandlerOutcome.response (messageParseFailResponse entry.pubsubName entry.topic e)
  | DecodeOutcome.crash e => HandlerOutcome.crash e
  | DecodeOutcome.ok msg =>
      HandlerOutcome.response (encodeMessageResult (entry.messageHandler msg))

/-- Claim C5: once the structured-envelope checks pass, the data is
resolved by the effective content type: JSON-like and data present
gives the captured bytes, otherwise a present data_base64 is decoded,
otherwise the decode fails; malformed base64 also fails. -/
theorem envelope_data_resolution
    (entry : PubsubEntry) (ce : CloudEvent) (hdrs : Headers) (body : List Nat)
    (hnce : entry.options.NoCloudEvent = false)
    (hsv : ce.specversion = "1.0")
    (hps : ce.pubsubname = entry.pubsubName)
    (htp : ce.topic = entry.topic) :
    (∀ d, containsJsonDataCT (ce.datacontenttype.getD "") = true → ce.data = some d →
        ∃ msg, decodeEventMessage entry "application/cloudevents+json" hdrs body (some ce)
            = DecodeOutcome.ok msg ∧ msg.Data = d)
    ∧ (∀ b64 bytes, containsJsonDataCT (ce.datacontenttype.getD "") = false →
        ce.data_base64 = some b64 → base64Decode b64 = some bytes →
        ∃ msg, decodeEventMessage entry "application/cloudevents+json" hdrs body (some ce)
            = DecodeOutcome.ok msg ∧ msg.Data = bytes)
    ∧ (containsJsonDataCT (ce.datacontenttype.getD "") = false → ce.data_base64 = none →
        decodeEventMessage entry "application/cloudevents+json" hdrs body (some ce)
            = DecodeOutcome.fail "Cloud-event data does not match content type.")
    ∧ (∀ b64, containsJsonDataCT (ce.datacontenttype.getD "") = false →
        ce.data_base64 = some b64 → base64Decode b64 = none →
        decodeEventMessage entry "application/cloudevents+json" hdrs body (some ce)
            = DecodeOutcome.fail "Failed to decode cloud-event base64 data.") := by
  refine ⟨?_, ?_, ?_, ?_⟩
  · intro d hjson hdata
    simp [decodeEventMessage, hnce, hsv, hps, htp, hdata, hjson,
      Message.ContainsJsonData, setEnvelopeFields]
  · intro b64 bytes hjson hb64 hdec
    simp [decodeEventMessage, hnce, hsv, hps, htp, hb64, hdec, hjson,
      Message.ContainsJsonData, setEnvelopeFields]
  · intro hjson hb64
    simp [decodeEventMessage, hnce, hsv, hps, htp, hb64, hjson,
      Message.ContainsJsonData]
  · intro b64 hjson hb64 hdec
    simp [decodeEventMessage, hnce, hsv, hps, htp, hb64, hdec, hjson,
      Message.ContainsJsonData]

/-- A concrete structured-envelope subscription used by the witnesses. -/
def subEntryW : PubsubEntry :=
  { pubsubName := "ps"
    topic := "tp"
    options := { RawPayload := false, NoCloudEvent := false }
    messageHandler := fun _ => MessageResultSuccess }

/-- A concrete envelope with JSON-like content type and captured data. -/
def ceW : CloudEvent :=
  { id := "1", source := "src", specversion := "1.0", eventType := "t"
    datacontenttype := none, dataschema := none, subject := none, time := none
    data := some [123], data_base64 := none
    pubsubname := "ps", topic := "tp", traceid := "", traceparent := "", tracestate := "" }

/-- Witness for claim C5: the concrete envelope with captured JSON data
byte 123 decodes to a Message carrying exactly that byte. -/
theorem envelope_data_resolution_witness :
    ∃ msg, decodeEventMessage subEntryW "application/cloudevents+json" [] [] (some ceW)
        = DecodeOutcome.ok msg ∧ msg.Data = [123] :=
  (envelope_data_resolution subEntryW ceW [] [] rfl rfl rfl rfl).1 [123] (by decide) rfl

/-- The same envelope with the data field absent. -/
def ceNoData : CloudEvent :=
  { id := "1", source := "src", specversion := "1.0", eventType := "t"
    datacontenttype := none, dataschema := none, subject := none, time := none
    data := none, data_base64 := none
    pubsubname := "ps", topic := "tp", traceid := "", traceparent := "", tracestate := "" }

/-- Claim C6 evaluated at the failing input: a structured envelope that
passes every check, has a JSON-like effective content type (absent
datacontenttype) and no data field makes the decoder dereference the
nil captured-data pointer, a Go runtime panic, instead of producing the
decode-error value that messageParseFail would turn into a plain-text
400; the callback is not invoked, but no response is written either. -/
theorem json_branch_nil_data_dereference :
    decodeEventMessage subEntryW "application/cloudevents+json" [] [] (some ceNoData)
        = DecodeOutcome.crash "invalid memory address or nil pointer dereference"
    ∧ handleEventMessage subEntryW "application/cloudevents+json" [] [] (some ceNoData)
        = HandlerOutcome.crash "invalid memory address or nil pointer dereference" := by
  refine ⟨by decide, by decide⟩

/-- invocation.go pubsub: a named source owning registered entries. -/
structure Pubsub where
  name : String
  entries : List PubsubEntry

/-- The daprSvc service state relevant to the core: the pubsub
registry (Go map modeled as an association list in insertion order;
map iteration order is unspecified in Go, all statements below are
order-insensitive or concern a single source) and the optional
invocation handler. -/
structure DaprSvcState where
  pubsubs : List Pubsub
  invocationHandler : Option (HttpRequest → HttpResponse)

/-- invocation.go (ev *events) NewPubsub: store a fresh empty pubsub
under the name, replacing any existing one (orphaning its entries). -/
def newPubsub (s : DaprSvcState) (name : String) : DaprSvcState :=
  if s.pubsubs.any (fun p => p.name == name) then
    { s with pubsubs := s.pubsubs.map (fun p =>
        if p.name == name then { name := name, entries := [] } else p) }
  else
    { s with pubsubs := s.pubsubs ++ [{ name := name, entries := [] }] }

/-- invocation.go (ps *pubsub) RegisterMessageHandler: append an entry
to the named pubsub (no uniqueness check of the topic). -/
def registerMessageHandler (s : DaprSvcState) (psName topic : String)
    (opts : PubsubOptions) (h : Message → MessageResultImpl) : DaprSvcState :=
  { s with pubsubs := s.pubsubs.map (fun p =>
      if p.name == psName then
        { p with entries := p.entries
            ++ [{ pubsubName := p.name, topic := topic, options := opts, messageHandler := h }] }
      else p) }

/-- invocation.go (entry pubsubEntry) constructRoute. -/
def constructRoute (e : PubsubEntry) : String :=
  "/" ++ e.pubsubName ++ "/" ++ e.topic

/-- All entries across all pubsubs, in registry order. -/
def allEntries (s : DaprSvcState) : List PubsubEntry :=
  (s.pubsubs.map Pubsub.entries).flatten

/-- One discovery descriptor as the johanson stream writer in
invocation.go writePubsubConfigData renders it. -/
def descriptorJson (routeBase : String) (e : PubsubEntry) : String :=
  "\x7b\"pubsubname\":" ++ jsonString e.pubsubName
    ++ ",\"topic\":" ++ jsonString e.topic
    ++ ",\"route\":" ++ jsonString (routeBase ++ constructRoute e)
    ++ ",\"metadata\":"
    ++ (if e.options.RawPayload then "\x7b\"rawPayload\":\"true\"\x7d" else "\x7b\x7d")
    ++ "\x7d"

/-- invocation.go (ev *events) writePubsubConfigData: the JSON array of
descriptors over every entry of every pubsub. -/
def writePubsubConfigData (s : DaprSvcState) (routeBase : String) : String :=
  "[" ++ String.intercalate "," ((allEntries s).map (descriptorJson routeBase)) ++ "]"

/-- The GET /dapr/subscribe response of the handler in HttpHandler:
the handler adds the application/json content type and writes the
config data; net/http sends the implicit 200 on the first write. -/
def subscribeResponse (s : DaprSvcState) : HttpResponse :=
  { status := 200
    headers := [("Content-Type", "application/json")]
    body := writePubsubConfigData s "/message" }

/-- invocation.go (ev *events) pubsubEntriesWithRoutes. -/
def pubsubEntriesWithRoutes (s : DaprSvcState) : List (String × PubsubEntry) :=
  (allEntries s).map (fun e => (constructRoute e, e))

/-- Route registration of the julienschmidt httprouter dependency:
registering a handle for a path that already has one panics
(tree.go addRoute), modeled as the error case of Except. -/
def routerAddRoute (routes : List (String × PubsubEntry)) (path : String)
    (e : PubsubEntry) : Except String (List (String × PubsubEntry)) :=
  if routes.any (fun re => re.1 == path) then
    Except.error ("a handle is already registered for path \x27" ++ path ++ "\x27")
  else
    Except.ok (routes ++ [(path, e)])

/-- Register a list of routes in order, stopping at the first panic. -/
def addAllRoutes (acc : List (String × PubsubEntry)) :
    List (String × PubsubEntry) → Except String (List (String × PubsubEntry))
  | [] => Except.ok acc
  | (path, e) :: rest =>
    match routerAddRoute acc path e with
    | Except.error m => Except.error m
    | Except.ok acc2 => addAllRoutes acc2 rest

/-- The POST message routes registered by the loop in HttpHandler:
each entry route under the /message base path, registered in order on
a fresh router. -/
def buildMessageRoutes (s : DaprSvcState) : Except String (List (String × PubsubEntry)) :=
  addAllRoutes [] ((pubsubEntriesWithRoutes s).map (fun re => ("/message" ++ re.1, re.2)))

/-- Where the built router sends one request: the discovery payload,
a message-route entry, or the router 404. -/
inductive RouteResult where
  | subscribeConfig (body : String)
  | message (entry : PubsubEntry)
  | notFound

/-- Dispatch of the router built by HttpHandler. The /dapr/subscribe
closure calls writePubsubConfigData on the captured service pointer, so
it reads the registry state current at request time, while the message
routes were fixed when the router was built. -/
def routeRequest (builtRoutes : List (String × PubsubEntry)) (current : DaprSvcState)
    (method path : String) : RouteResult :=
  if method == "GET" && path == "/dapr/subscribe" then
    RouteResult.subscribeConfig (writePubsubConfigData current "/message")
  else if method == "POST" then
    match builtRoutes.lookup path with
    | some e => RouteResult.message e
    | none => RouteResult.notFound
  else
    RouteResult.notFound

/-- HttpHandler as seen across registry mutation: builtAt is the state
when HttpHandler() ran (fixing the message routes, or panicking on a
duplicate route), current is the live state at request time (read by
the subscribe closure through the captured pointer). -/
def httpHandlerServe (builtAt current : DaprSvcState) (method path : String) :
    Except String RouteResult :=
  (buildMessageRoutes builtAt).map (fun routes => routeRequest routes current method path)

/-- The registered route of an entry under the /message base is the
slash-joined source and topic. -/
theorem route_shape (e : PubsubEntry) :
    "/message" ++ constructRoute e = "/message/" ++ e.pubsubName ++ "/" ++ e.topic := by
  unfold constructRoute
  rw [← String.append_assoc, ← String.append_assoc, ← String.append_assoc]
  rfl

/-- Claim C8: GET /dapr/subscribe answers 200 with the application/json
content type and a JSON array holding exactly one descriptor per
registered subscription, whose route is /message/ followed by the
source name, a slash and the topic and whose metadata object holds
rawPayload true exactly when the option is set; with no subscriptions
the body is the empty array. -/
theorem subscribe_endpoint_payload (s : DaprSvcState) :
    (subscribeResponse s).status = 200
    ∧ (subscribeResponse s).headers = [("Content-Type", "application/json")]
    ∧ (subscribeResponse s).body
        = "[" ++ String.intercalate "," ((allEntries s).map (descriptorJson "/message")) ++ "]"
    ∧ (∀ e, descriptorJson "/message" e
        = "\x7b\"pubsubname\":" ++ jsonString e.pubsubName
          ++ ",\"topic\":" ++ jsonString e.topic
          ++ ",\"route\":" ++ jsonString ("/message/" ++ e.pubsubName ++ "/" ++ e.topic)
          ++ ",\"metadata\":"
          ++ (if e.options.RawPayload then "\x7b\"rawPayload\":\"true\"\x7d" else "\x7b\x7d")
          ++ "\x7d")
    ∧ ((allEntries s).map (descriptorJson "/message")).length = (allEntries s).length
    ∧ (allEntries s = [] → (subscribeResponse s).body = "[]") := by
  refine ⟨rfl, rfl, rfl, ?_, by simp, ?_⟩
  · intro e
    unfold descriptorJson
    rw [route_shape]
  · intro h
    simp [subscribeResponse, writePubsubConfigData, h]
    rfl

/-- Witness for claim C8: with the empty registry the body is exactly
the empty JSON array. -/
theorem subscribe_endpoint_payload_witness :
    (subscribeResponse { pubsubs := [], invocationHandler := none }).body = "[]" :=
  (subscribe_endpoint_payload { pubsubs := [], invocationHandler := none }).2.2.2.2.2 rfl

/-- The empty service state, as daprsvc.New() produces it. -/
def emptySvc : DaprSvcState :=
  { pubsubs := [], invocationHandler := none }

/-- A state in which the pair (ps, order) was registered twice. -/
def dupState : DaprSvcState :=
  registerMessageHandler
    (registerMessageHandler (newPubsub emptySvc "ps") "ps" "order"
      { RawPayload := false, NoCloudEvent := false } (fun _ => MessageResultSuccess))
    "ps" "order"
    { RawPayload := false, NoCloudEvent := false } (fun _ => MessageResultSuccess)

/-- Counterexample for claim C4: after registering the same
(sourceName, topic) pair twice, building the HTTP handler does not
succeed; the router rejects the second registration of the duplicate
route with its registration panic. -/
theorem duplicate_pair_build_panics :
    buildMessageRoutes dupState
      = Except.error "a handle is already registered for path \x27/message/ps/order\x27" := by
  rfl

/-- Claim C4 (amended): registering a second subscription for the same
(sourceName, topic) pair appends a second entry without any error at
registration time (no uniqueness check), but building the HTTP handler
afterwards always fails with the router's duplicate-route registration
panic, so no built handler dispatches the pair's route to either
callback. -/
theorem duplicate_pair_appends_then_build_fails
    (name topic : String) (o1 o2 : PubsubOptions) (h1 h2 : Message → MessageResultImpl) :
    allEntries (registerMessageHandler
        (registerMessageHandler (newPubsub emptySvc name) name topic o1 h1)
        name topic o2 h2)
      = [{ pubsubName := name, topic := topic, options := o1, messageHandler := h1 },
         { pubsubName := name, topic := topic, options := o2, messageHandler := h2 }]
    ∧ ∃ emsg, buildMessageRoutes (registerMessageHandler
        (registerMessageHandler (newPubsub emptySvc name) name topic o1 h1)
        name topic o2 h2)
      = Except.error emsg := by
  constructor
  · simp [allEntries, registerMessageHandler, newPubsub, emptySvc]
  · refine ⟨"a handle is already registered for path \x27"
        ++ ("/message" ++ ("/" ++ name ++ "/" ++ topic)) ++ "\x27", ?_⟩
    simp [buildMessageRoutes, pubsubEntriesWithRoutes, allEntries, registerMessageHandler,
      newPubsub, emptySvc, addAllRoutes, routerAddRoute, constructRoute]

/-- Lookup misses every key that is not among the stored keys. -/
theorem lookup_none_of_key_not_mem {β : Type} (l : List (String × β)) (k : String)
    (h : k ∉ l.map Prod.fst) : l.lookup k = none := by
  induction l with
  | nil => rfl
  | cons a t ih =>
    cases a with
    | mk a1 a2 =>
      simp only [List.map_cons, List.mem_cons, not_or] at h
      have hne : (k == a1) = false := beq_eq_false_iff_ne.mpr h.1
      simp [List.lookup, hne, ih h.2]

/-- The single entry registered in the mutated-after-build scenario. -/
def entryC10 : PubsubEntry :=
  { pubsubName := "pb"
    topic := "tp"
    options := { RawPayload := false, NoCloudEvent := false }
    messageHandler := fun _ => MessageResultSuccess }

/-- State after registering (pb, tp) on the empty service. -/
def s1c10 : DaprSvcState :=
  registerMessageHandler (newPubsub emptySvc "pb") "pb" "tp"
    { RawPayload := false, NoCloudEvent := false } (fun _ => MessageResultSuccess)

/-- Counterexample for claim C10: a handler built on the empty registry
answers GET /dapr/subscribe, after (pb, tp) is registered, with the
descriptor of the later registration rather than the empty array the
build-time registry had: the subscribe closure reads the live state. -/
theorem built_handler_subscribe_reads_live_state :
    httpHandlerServe emptySvc s1c10 "GET" "/dapr/subscribe"
      = Except.ok (RouteResult.subscribeConfig
          ("[" ++ descriptorJson "/message" entryC10 ++ "]"))
    ∧ writePubsubConfigData s1c10 "/message" ≠ "[]" := by
  constructor
  · rfl
  · decide

/-- Claim C10 (amended): the message routes are fixed when HttpHandler
runs, so a route only registered later is answered 404 by the
already-built handler and dispatched by a freshly built one; the
/dapr/subscribe output is computed per request from the live registry,
so even the already-built handler includes later registrations there. -/
theorem message_routes_snapshot_subscribe_live
    (s0 s1 : DaprSvcState) (routes0 routes1 : List (String × PubsubEntry))
    (p : String) (e : PubsubEntry)
    (h0 : buildMessageRoutes s0 = Except.ok routes0)
    (h1 : buildMessageRoutes s1 = Except.ok routes1)
    (hnot : p ∉ routes0.map Prod.fst)
    (hin : routes1.lookup p = some e) :
    httpHandlerServe s0 s1 "POST" p = Except.ok RouteResult.notFound
    ∧ httpHandlerServe s1 s1 "POST" p = Except.ok (RouteResult.message e)
    ∧ httpHandlerServe s0 s1 "GET" "/dapr/subscribe"
        = Except.ok (RouteResult.subscribeConfig (writePubsubConfigData s1 "/message")) := by
  refine ⟨?_, ?_, ?_⟩
  · simp [httpHandlerServe, h0, routeRequest, Except.map,
      lookup_none_of_key_not_mem routes0 p hnot]
  · simp [httpHandlerServe, h1, routeRequest, Except.map, hin]
  · simp [httpHandlerServe, h0, routeRequest, Except.map]

/-- Witness for the amended claim C10: the handler built on the empty
registry answers 404 on the message route registered afterwards. -/
theorem message_routes_snapshot_subscribe_live_witness :
    httpHandlerServe emptySvc s1c10 "POST" "/message/pb/tp" = Except.ok RouteResult.notFound :=
  (message_routes_snapshot_subscribe_live emptySvc s1c10 [] [("/message/pb/tp", entryC10)]
    "/message/pb/tp" entryC10 rfl rfl (by simp) rfl).1
